import Mathlib

/-!
Verification of the configuration core (`src/config.c`).

Shallow embedding of the configuration-to-runtime-structure compiler of
`src/config.c` (awesome window manager, 2007-era): symbol tables, modifier
mask composition, statusbar position dispatch, per-screen layout/tag
resolution, rule list construction and the binding-list builders.

Modelling conventions:
* C strings are `String` (for name lookups, compared with `==`, the
  behaviour of `a_strcmp` equality) or `List Char` where the bounded
  comparison `a_strncmp`/`strncmp` matters (statusbar position); a C
  `NULL` string pointer is `Option.none`.
* C `NULL`-terminated singly-linked lists (`Button`, `Key`, `Rule`) are
  `List`: the empty list is the `NULL` head pointer, and the slot after the
  last element (`get? length = none`) is the last node's `next` field.
* function pointers of the layout table are the inductive `LayoutFunc`
  (distinct constructors = distinct addresses); the command table
  `UicbList` is `extern` (outside `src/`), so builders are parameterized
  by an arbitrary association table `uicb` of command names.
* machine integers that matter (`rule->screen`, an `int`) are `Int`;
  X11 mask bits are `Nat`.
* `eprint` (fatal abort) is modelled by the screen resolver returning
  `Option.none`; `warn`/`fprintf` diagnostics are modelled by explicit
  warning lists.
-/

namespace AwesomeConfig

/-- X11 `ShiftMask`. -/
def ShiftMask : Nat := 1
/-- X11 `LockMask`. -/
def LockMask : Nat := 2
/-- X11 `ControlMask`. -/
def ControlMask : Nat := 4
/-- X11 `Mod1Mask`. -/
def Mod1Mask : Nat := 8
/-- X11 `Mod2Mask`. -/
def Mod2Mask : Nat := 16
/-- X11 `Mod3Mask`. -/
def Mod3Mask : Nat := 32
/-- X11 `Mod4Mask`. -/
def Mod4Mask : Nat := 64
/-- X11 `Mod5Mask`. -/
def Mod5Mask : Nat := 128
/-- X11 `NoSymbol` (the 0 sentinel returned by `key_mask_lookup` on failure). -/
def NoSymbol : Nat := 0

/-- Table `KeyModList` of `config.c`: key-mask names and their X11 mask codes
(the terminating `{NULL, NoSymbol}` entry is the end of the list). -/
def KeyModList : List (String × Nat) :=
  [("Shift", ShiftMask), ("Lock", LockMask), ("Control", ControlMask),
   ("Mod1", Mod1Mask), ("Mod2", Mod2Mask), ("Mod3", Mod3Mask),
   ("Mod4", Mod4Mask), ("Mod5", Mod5Mask)]

/-- Table `MouseButtonList` of `config.c`: button names and X11 button codes
(`Button1`..`Button5` are 1..5). -/
def MouseButtonList : List (String × Nat) :=
  [("1", 1), ("2", 2), ("3", 3), ("4", 4), ("5", 5)]

/-- The four layout arrange functions of `LayoutsList`; distinct
constructors model distinct function addresses. -/
inductive LayoutFunc
  | layout_tile
  | layout_tileleft
  | layout_max
  | layout_floating
  deriving DecidableEq, Repr

instance : BEq LayoutFunc := ⟨fun a b => decide (a = b)⟩

instance : LawfulBEq LayoutFunc where
  eq_of_beq h := of_decide_eq_true h
  rfl := by intro a; simp [BEq.beq]

/-- Table `LayoutsList` of `config.c`: layout names and their arrange functions. -/
def LayoutsList : List (String × LayoutFunc) :=
  [("tile", .layout_tile), ("tileleft", .layout_tileleft),
   ("max", .layout_max), ("floating", .layout_floating)]

/-- Modelled from the spec: `name_func_lookup` (in `util.c`, outside
`src/`) — "a linear … scan over a fixed, compile-time table; unmatched
input yields a sentinel none value …; the lookup is case-sensitive exact
string match" (§4.1). A `NULL` name argument also yields the sentinel. -/
def name_func_lookup {α : Type} (funcname : Option String)
    (list : List (String × α)) : Option α :=
  match funcname with
  | none => none
  | some n => (list.find? (fun entry => entry.1 == n)).map (fun entry => entry.2)

/-- Function `key_mask_lookup` of `config.c`: first matching entry of `KeyModList`,
`NoSymbol` (= 0) if the name is `NULL` or unmatched. -/
def key_mask_lookup (keyname : Option String) : Nat :=
  match name_func_lookup keyname KeyModList with
  | some mask => mask
  | none => NoSymbol

/-- Function `mouse_button_lookup` of `config.c`: first matching entry of
`MouseButtonList`, 0 if the name is `NULL` or unmatched. -/
def mouse_button_lookup (button : Option String) : Nat :=
  match name_func_lookup button MouseButtonList with
  | some b => b
  | none => 0

/-- The modifier-mask fold of `config.c` (lines 143-144 and 511-512):
`b->mod |= key_mask_lookup(...)` over the declared `modkey` list, starting
from the zero-initialized field. -/
def compose_mask (names : List (Option String)) : Nat :=
  names.foldl (fun m n => m ||| key_mask_lookup n) 0

/-- Modelled from the spec: `a_strncmp` (in `util.*`, outside `src/`) is
ISO C `strncmp` over NUL-terminated strings — compare at most `n`
character positions, stopping at the first difference or at the
terminating NUL (a shorter string compares as its NUL against the other's
next character). Only the zero/nonzero outcome is consumed by `config.c`. -/
def a_strncmp : List Char → List Char → Nat → Int
  | _, _, 0 => 0
  | [], [], _ + 1 => 0
  | [], _ :: _, _ + 1 => -1
  | _ :: _, [], _ + 1 => 1
  | a :: s, b :: t, n + 1 =>
    if a = b then a_strncmp s t n
    else if a.toNat < b.toNat then -1 else 1

/-- The five statusbar positions (`BarTop`, `BarBot`, `BarRight`,
`BarLeft`, `BarOff`). -/
inductive BarPosition
  | BarTop
  | BarBot
  | BarRight
  | BarLeft
  | BarOff
  deriving DecidableEq, Repr

/-- Statusbar position dispatch of `parse_config` (lines 381-395): a chain
of `tmp && !a_strncmp(tmp, pat, n)` tests in source order, `BarTop`
otherwise (also when `tmp` is `NULL`). -/
def statusbar_position (tmp : Option (List Char)) : BarPosition :=
  match tmp with
  | none => .BarTop
  | some t =>
    if a_strncmp t "off".toList 6 = 0 then .BarOff
    else if a_strncmp t "bottom".toList 6 = 0 then .BarBot
    else if a_strncmp t "right".toList 5 = 0 then .BarRight
    else if a_strncmp t "left".toList 4 = 0 then .BarLeft
    else .BarTop

/-- A declared `layout` sub-section: its title (`cfg_title`) and its
`symbol` string. -/
structure LayoutSection where
  title : String
  symbol : String
  deriving DecidableEq, Repr

/-- A resolved `Layout` slot: `symbol` is `NULL` (`none`) when the title
lookup failed, `arrange` is the looked-up function pointer or `NULL`. -/
structure Layout where
  symbol : Option String
  arrange : Option LayoutFunc
  deriving DecidableEq, Repr

/-- One iteration of the layout loop of `parse_config` (lines 400-411):
`arrange = name_func_lookup(cfg_title(...), LayoutsList)`; on failure the
slot keeps a `NULL` symbol (`warn` path, `continue`), otherwise the
declared symbol string is copied. -/
def resolve_layout (s : LayoutSection) : Layout :=
  match name_func_lookup (some s.title) LayoutsList with
  | none => { symbol := none, arrange := none }
  | some f => { symbol := some s.symbol, arrange := some f }

/-- The layout array of a screen: one slot per declared `layout`
sub-section, in declaration order (`nlayouts = cfg_size(cfg_layouts,
"layout")`, slot `i` from section `i`). -/
def build_layouts (secs : List LayoutSection) : List Layout :=
  secs.map resolve_layout

/-- The titles for which the layout loop hits its `warn("unknown layout
…")` branch, in emission order. -/
def layout_warnings (secs : List LayoutSection) : List String :=
  (secs.filter
    (fun s => (name_func_lookup (some s.title) LayoutsList).isNone)).map
    (fun s => s.title)

/-- A declared `tag` sub-section: title, `layout` name, `nmaster`, `ncol`
(the `mwfact` C `double` is copied through unchanged by the code and is
left outside this embedding). -/
structure TagSection where
  title : String
  layout : String
  nmaster : Int
  ncol : Int
  deriving DecidableEq, Repr

/-- A resolved `Tag`: the `layout` field models the pointer
`&layouts[k]` by the index `k` into the screen's layout array. -/
structure Tag where
  name : String
  selected : Bool
  was_selected : Bool
  layout : Nat
  nmaster : Int
  ncol : Int
  deriving DecidableEq, Repr

/-- The tag-layout match loop of `parse_config` (lines 425-431): scan `k`
upward for the first slot whose `arrange` pointer equals
`name_func_lookup(tmp, LayoutsList)` (pointer identity, so a failed
lookup, `NULL`, matches the first failed slot); `k = 0` when the scan
falls off the end. -/
def tag_layout_index (layouts : List Layout) (tmp : String) : Nat :=
  match layouts.findIdx?
      (fun l => l.arrange == name_func_lookup (some tmp) LayoutsList) with
  | some k => k
  | none => 0

/-- One iteration of the tag loop of `parse_config` (lines 419-435): both
selection flags start `False`; the layout reference comes from
`tag_layout_index`. -/
def resolve_tag (layouts : List Layout) (s : TagSection) : Tag :=
  { name := s.title
    selected := false
    was_selected := false
    layout := tag_layout_index layouts s.layout
    nmaster := s.nmaster
    ncol := s.ncol }

/-- The tag array before the first tag is selected: one entry per declared
`tag` sub-section, in declaration order. -/
def build_tags (layouts : List Layout) (secs : List TagSection) : List Tag :=
  secs.map (resolve_tag layouts)

/-- Lines 441-442 of `parse_config`: `tags[0].selected = True;
tags[0].was_selected = True` (run only after the nonempty check). -/
def select_first_tag : List Tag → List Tag
  | [] => []
  | t :: ts => { t with selected := true, was_selected := true } :: ts

/-- The per-screen resolved configuration (the claim-relevant fields of
`screens[screen]`; scalar pass-through fields and the external font/color
allocations are outside this embedding). -/
structure ScreenConf where
  dposition : BarPosition
  layouts : List Layout
  tags : List Tag
  deriving Repr

/-- The per-screen body of `parse_config` (lines 381-442), with the two
`eprint` fatal aborts (`!nlayouts` at line 413, `!ntags` at line 437)
modelled as `none`.  The layout array is built before the `nlayouts`
check, the tag array before the `ntags` check, exactly as in the source;
both checks test the declared section count (`cfg_size`). -/
def resolve_screen (sbpos : Option (List Char)) (laysecs : List LayoutSection)
    (tagsecs : List TagSection) : Option ScreenConf :=
  let layouts := build_layouts laysecs
  if laysecs.length = 0 then none
  else
    let tags := build_tags layouts tagsecs
    if tagsecs.length = 0 then none
    else some
      { dposition := statusbar_position sbpos
        layouts := layouts
        tags := select_first_tag tags }

/-- A declared `rule` section: `name`, `tags`, `float`, `screen`
(`CFG_INT`, a C integer, possibly negative — the unset default is the
`RULE_NOSCREEN` constant of `rules.h`, outside `src/`). -/
structure RuleSection where
  name : String
  tags : String
  isfloat : Bool
  screen : Int
  deriving DecidableEq, Repr

/-- A resolved `Rule` node: `tags` becomes `NULL` when the declared
string is empty; `next` is the list structure. -/
structure Rule where
  prop : String
  tags : Option String
  isfloating : Bool
  screen : Int
  deriving DecidableEq, Repr

/-- One iteration of the rule loop of `parse_config` (lines 460-479):
`rule->screen = cfg_getint(...); if(rule->screen >= get_screen_count(...))
rule->screen = 0;`. -/
def resolve_rule (screen_count : Int) (s : RuleSection) : Rule :=
  { prop := s.name
    tags := if s.tags.length = 0 then none else some s.tags
    isfloating := s.isfloat
    screen := if s.screen ≥ screen_count then 0 else s.screen }

/-- The rule list of `parse_config` (lines 457-482): `NULL` head for zero
declared rules, otherwise one node per declared `rule` section in
declaration order, the last node's `next` being `NULL`. -/
def parse_rules (screen_count : Int) (secs : List RuleSection) : List Rule :=
  secs.map (resolve_rule screen_count)

/-- A declared pointer-binding section (`mouse_tag_opts` /
`mouse_generic_opts`): `modkey` string list, `button` name, `command`
name, and the `arg` string whose unset default is `NULL` (the tag-kind
sections declare no `arg` option at all, so `cfg_getstr` yields `NULL`
there). -/
structure MouseSection where
  modkey : List String
  button : String
  command : String
  arg : Option String
  deriving DecidableEq, Repr

/-- A `Button` node of one pointer-binding list; `func` is `NULL` when
the command name resolved to nothing. -/
structure Button where
  mod : Nat
  button : Nat
  func : Option Nat
  arg : Option String
  deriving DecidableEq, Repr

/-- The body of one iteration of `parse_mouse_bindings` (lines 142-152):
modifier fold over the `modkey` list from the zero-initialized field,
button lookup, command lookup (`warn` when it fails, node still filled),
and the `handle_arg` switch that forces `arg` to `NULL` for
non-argument-bearing kinds.  `uicb` is the external `UicbList` table of
command names (abstract command identities). -/
def resolve_button (uicb : List (String × Nat)) (handle_arg : Bool)
    (s : MouseSection) : Button :=
  { mod := compose_mask (s.modkey.map some)
    button := mouse_button_lookup (some s.button)
    func := name_func_lookup (some s.command) uicb
    arg := if handle_arg then s.arg else none }

/-- Function `parse_mouse_bindings` (lines 128-165): head stays `NULL` when the
declared count is zero (the loop body, including the `i == 0` eager head
allocation, never runs); otherwise node `i` is filled from section `i`
and the last node's `next` is set to `NULL`.  The returned `List` is the
linked list from `head`. -/
def parse_mouse_bindings (uicb : List (String × Nat)) (handle_arg : Bool) :
    List MouseSection → List Button
  | [] => []
  | s :: rest => resolve_button uicb handle_arg s ::
      parse_mouse_bindings uicb handle_arg rest

/-- A declared `key` section (`key_opts`): `modkey` string list (default
`{Mod4}`), `key` name, `command` name, `arg` with `NULL` default. -/
structure KeySection where
  modkey : List String
  key : String
  command : String
  arg : Option String
  deriving DecidableEq, Repr

/-- A `Key` node of the keyboard-binding list; `keysym` is the result of
the external `XStringToKeysym` translation. -/
structure Key where
  mod : Nat
  keysym : Nat
  func : Option Nat
  arg : Option String
  deriving DecidableEq, Repr

/-- The body of one iteration of the key loop of `parse_config` (lines
510-517): modifier fold, `XStringToKeysym` (an external X11 translation,
passed in as `ksym`), command lookup (diagnostic to `stderr` when it
fails, node still filled and linked), `arg` copied. -/
def resolve_key (uicb : List (String × Nat)) (ksym : String → Nat)
    (s : KeySection) : Key :=
  { mod := compose_mask (s.modkey.map some)
    keysym := ksym s.key
    func := name_func_lookup (some s.command) uicb
    arg := s.arg }

/-- The keyboard list of `parse_config` (lines 505-529): `NULL` head when
`cfg_size(cfg_keys, "key")` is zero, otherwise one node per declared
section in declaration order, last node's `next` `NULL`. -/
def parse_keys (uicb : List (String × Nat)) (ksym : String → Nat) :
    List KeySection → List Key
  | [] => []
  | s :: rest => resolve_key uicb ksym s :: parse_keys uicb ksym rest

/-- The command names for which the key loop hits its
`fprintf(stderr, "awesome: unknown command …")` branch, in emission
order. -/
def key_warnings (uicb : List (String × Nat)) (secs : List KeySection) :
    List String :=
  (secs.filter
    (fun s => (name_func_lookup (some s.command) uicb).isNone)).map
    (fun s => s.command)

/-! ## Helper lemmas -/

/-- The mouse-binding loop fills node `i` purely from section `i`: the
linked list is the map of `resolve_button` over the declared sections. -/
theorem parse_mouse_bindings_eq_map (uicb : List (String × Nat)) (ha : Bool)
    (secs : List MouseSection) :
    parse_mouse_bindings uicb ha secs = secs.map (resolve_button uicb ha) := by
  induction secs with
  | nil => rfl
  | cons s rest ih => simp [parse_mouse_bindings, ih]

/-- The key-binding loop fills node `i` purely from section `i`. -/
theorem parse_keys_eq_map (uicb : List (String × Nat)) (ksym : String → Nat)
    (secs : List KeySection) :
    parse_keys uicb ksym secs = secs.map (resolve_key uicb ksym) := by
  induction secs with
  | nil => rfl
  | cons s rest ih => simp [parse_keys, ih]

/-- A fold of bitwise-or over a list is invariant under permutation of
the list (bitwise-or is associative and commutative). -/
theorem foldl_or_perm {α : Type} (g : α → Nat) {l l2 : List α}
    (p : l.Perm l2) :
    ∀ b : Nat, l.foldl (fun m n => m ||| g n) b
      = l2.foldl (fun m n => m ||| g n) b := by
  induction p with
  | nil => intro b; rfl
  | cons x _ ih => intro b; simpa using ih _
  | swap x y l =>
      intro b
      simp only [List.foldl]
      rw [Nat.or_assoc, Nat.or_assoc, Nat.or_comm (g y) (g x)]
  | trans _ _ ih1 ih2 => intro b; rw [ih1 b, ih2 b]

/-! ## Claims -/

/-- C1: for every binding kind (all five pointer-binding kinds, which
are `parse_mouse_bindings` at either value of `handle_arg`, and the
keyboard kind) and every declared section list, the built list has
exactly as many nodes as declared sections, node `i` is resolved from
section `i` (declaration order), the slot after the last node — the last
node's `next` field — is `none`, and for zero declared sections the head
is `none`. -/
theorem binding_lists_spec (uicb : List (String × Nat)) (ksym : String → Nat)
    (msecs : List MouseSection) (handle_arg : Bool)
    (ksecs : List KeySection) :
    ((parse_mouse_bindings uicb handle_arg msecs).length = msecs.length
      ∧ (∀ i : Nat, (parse_mouse_bindings uicb handle_arg msecs)[i]?
          = msecs[i]?.map (resolve_button uicb handle_arg))
      ∧ (parse_mouse_bindings uicb handle_arg msecs)[msecs.length]? = none
      ∧ (parse_mouse_bindings uicb handle_arg []).head? = none)
  ∧ ((parse_keys uicb ksym ksecs).length = ksecs.length
      ∧ (∀ i : Nat, (parse_keys uicb ksym ksecs)[i]?
          = ksecs[i]?.map (resolve_key uicb ksym))
      ∧ (parse_keys uicb ksym ksecs)[ksecs.length]? = none
      ∧ (parse_keys uicb ksym []).head? = none) := by
  simp only [parse_mouse_bindings_eq_map, parse_keys_eq_map]
  refine ⟨⟨List.length_map _ _, fun i => ?_, ?_, rfl⟩,
          ⟨List.length_map _ _, fun i => ?_, ?_, rfl⟩⟩
  · exact List.getElem?_map _ _ _
  · simp [List.getElem?_eq_none]
  · exact List.getElem?_map _ _ _
  · simp [List.getElem?_eq_none]

/-- C7: composing the empty modifier-name list yields the zero
bitmask; composing `{"Control", "Mod1"}` yields the bitwise-OR of the
`KeyModList` entries for those names; and the composed mask is invariant
under reordering (permutation) of the name list. -/
theorem compose_mask_spec :
    compose_mask [] = 0
  ∧ compose_mask [some "Control", some "Mod1"] = (ControlMask ||| Mod1Mask)
  ∧ ∀ l l2 : List (Option String), l.Perm l2 →
      compose_mask l = compose_mask l2 := by
  refine ⟨rfl, by decide, fun l l2 p => ?_⟩
  exact foldl_or_perm key_mask_lookup p 0

/-- Witness for `compose_mask_spec`: the reordering clause at the concrete
two-element list, together with the concrete OR value. -/
theorem compose_mask_spec_witness :
    compose_mask [some "Mod1", some "Control"]
      = compose_mask [some "Control", some "Mod1"] :=
  compose_mask_spec.2.2 _ _ (List.Perm.swap _ _ _)

/-- Unfolding of `statusbar_position` on a non-`NULL` string. -/
theorem statusbar_position_some (t : List Char) :
    statusbar_position (some t) =
      (if a_strncmp t "off".toList 6 = 0 then .BarOff
       else if a_strncmp t "bottom".toList 6 = 0 then .BarBot
       else if a_strncmp t "right".toList 5 = 0 then .BarRight
       else if a_strncmp t "left".toList 4 = 0 then .BarLeft
       else .BarTop) := rfl

/-- Bounded comparison with differing head characters is nonzero. -/
theorem a_strncmp_cons_ne {a b : Char} (s t : List Char) (n : Nat)
    (h : a ≠ b) : a_strncmp (a :: s) (b :: t) (n + 1) ≠ 0 := by
  simp only [a_strncmp, if_neg h]
  split
  · decide
  · decide

/-- Bounded comparison whose bound equals the pattern length accepts any
extension of the pattern. -/
theorem a_strncmp_append_self (p rest : List Char) :
    a_strncmp (p ++ rest) p p.length = 0 := by
  induction p with
  | nil => cases rest <;> rfl
  | cons a s ih => simpa [a_strncmp] using ih

/-- C10: statusbar position resolution is total onto the five
positions; each of the four literal strings `off`, `bottom`, `right`,
`left` resolves to its position through the bounded (`strncmp`)
comparisons of the source; any string whose first five characters are
`right` resolves to `BarRight`; and every string matching none of the
four bounded patterns — among them the string `top` itself — resolves to
`BarTop`. -/
theorem statusbar_position_spec :
    (∀ s : List Char,
        statusbar_position (some s) = .BarOff
      ∨ statusbar_position (some s) = .BarBot
      ∨ statusbar_position (some s) = .BarRight
      ∨ statusbar_position (some s) = .BarLeft
      ∨ statusbar_position (some s) = .BarTop)
  ∧ statusbar_position (some "off".toList) = .BarOff
  ∧ statusbar_position (some "bottom".toList) = .BarBot
  ∧ statusbar_position (some "right".toList) = .BarRight
  ∧ statusbar_position (some "left".toList) = .BarLeft
  ∧ (∀ rest : List Char,
      statusbar_position (some ("right".toList ++ rest)) = .BarRight)
  ∧ (∀ s : List Char,
      a_strncmp s "off".toList 6 ≠ 0 → a_strncmp s "bottom".toList 6 ≠ 0 →
      a_strncmp s "right".toList 5 ≠ 0 → a_strncmp s "left".toList 4 ≠ 0 →
      statusbar_position (some s) = .BarTop)
  ∧ statusbar_position (some "top".toList) = .BarTop := by
  refine ⟨fun s => ?_, by decide, by decide, by decide, by decide,
          fun rest => ?_, fun s h1 h2 h3 h4 => ?_, by decide⟩
  · rw [statusbar_position_some]
    split_ifs <;> tauto
  · have e : "right".toList ++ rest = 'r' :: 'i' :: 'g' :: 'h' :: 't' :: rest := rfl
    have hoff : a_strncmp ('r' :: 'i' :: 'g' :: 'h' :: 't' :: rest)
        "off".toList 6 ≠ 0 := a_strncmp_cons_ne _ _ _ (by decide)
    have hbot : a_strncmp ('r' :: 'i' :: 'g' :: 'h' :: 't' :: rest)
        "bottom".toList 6 ≠ 0 := a_strncmp_cons_ne _ _ _ (by decide)
    have hr : a_strncmp ('r' :: 'i' :: 'g' :: 'h' :: 't' :: rest)
        "right".toList 5 = 0 := a_strncmp_append_self "right".toList rest
    rw [e, statusbar_position_some, if_neg hoff, if_neg hbot, if_pos hr]
  · rw [statusbar_position_some, if_neg h1, if_neg h2, if_neg h3, if_neg h4]

/-- Witness for `statusbar_position_spec`: the fall-through clause at the
concrete unrecognized string `statusbar`. -/
theorem statusbar_position_spec_witness :
    statusbar_position (some "statusbar".toList) = .BarTop :=
  statusbar_position_spec.2.2.2.2.2.2.1 "statusbar".toList
    (by decide) (by decide) (by decide) (by decide)

/-- C2: for every valid document (the screen resolver succeeded, which
requires at least one declared tag), the tag list has one entry per
declared tag section in declaration order, exactly one tag is selected,
it is the first declared tag, its `was_selected` flag is also set, and
every other tag has both flags unset. -/
theorem selected_tag_spec (sb : Option (List Char))
    (laysecs : List LayoutSection) (tagsecs : List TagSection)
    (conf : ScreenConf) (h : resolve_screen sb laysecs tagsecs = some conf) :
    conf.tags.length = tagsecs.length
  ∧ (∀ i : Nat, conf.tags[i]?.map Tag.name = tagsecs[i]?.map TagSection.title)
  ∧ conf.tags.countP (fun t => t.selected) = 1
  ∧ conf.tags[0]?.map Tag.selected = some true
  ∧ conf.tags[0]?.map Tag.was_selected = some true
  ∧ (∀ i : Nat, 0 < i → ∀ t : Tag, conf.tags[i]? = some t →
      t.selected = false ∧ t.was_selected = false) := by
  unfold resolve_screen at h
  by_cases hl : laysecs.length = 0
  · rw [if_pos hl] at h; exact absurd h (by simp)
  · rw [if_neg hl] at h
    by_cases ht : tagsecs.length = 0
    · rw [if_pos ht] at h; exact absurd h (by simp)
    · rw [if_neg ht] at h
      obtain ⟨s0, ss, rfl⟩ : ∃ s0 ss, tagsecs = s0 :: ss := by
        cases tagsecs with
        | nil => simp at ht
        | cons a l => exact ⟨a, l, rfl⟩
      injection h with h2
      have htags : conf.tags
          = select_first_tag (resolve_tag (build_layouts laysecs) s0
              :: List.map (resolve_tag (build_layouts laysecs)) ss) := by
        rw [← h2]; rfl
      rw [htags]
      simp only [select_first_tag]
      refine ⟨by simp, ?_, ?_, by simp, by simp, ?_⟩
      · intro i
        cases i with
        | zero => simp [resolve_tag]
        | succ j =>
          simp only [List.getElem?_cons_succ, List.getElem?_map]
          cases ss[j]? with
          | none => rfl
          | some s => rfl
      · rw [List.countP_cons]
        have h0 : List.countP (fun t => t.selected)
            (List.map (resolve_tag (build_layouts laysecs)) ss) = 0 := by
          rw [List.countP_eq_zero]
          intro t htm
          obtain ⟨s, _, rfl⟩ := List.mem_map.mp htm
          simp [resolve_tag]
        simp [h0]
      · intro i hi t hget
        cases i with
        | zero => exact absurd hi (by simp)
        | succ j =>
          simp only [List.getElem?_cons_succ] at hget
          obtain ⟨s, _, rfl⟩ := List.mem_map.mp (List.getElem?_mem hget)
          exact ⟨rfl, rfl⟩

/-- Witness for `selected_tag_spec` (C2): a document declaring one layout
and two tags resolves with exactly one selected tag. -/
theorem selected_tag_spec_witness :
    ((resolve_screen (some "top".toList) [⟨"tile", "[]"⟩]
        [⟨"one", "tile", 1, 1⟩, ⟨"two", "max", 1, 1⟩]).getD
      ⟨.BarTop, [], []⟩).tags.countP (fun t => t.selected) = 1 :=
  (selected_tag_spec (some "top".toList) [⟨"tile", "[]"⟩]
      [⟨"one", "tile", 1, 1⟩, ⟨"two", "max", 1, 1⟩]
      ((resolve_screen (some "top".toList) [⟨"tile", "[]"⟩]
        [⟨"one", "tile", 1, 1⟩, ⟨"two", "max", 1, 1⟩]).getD
        ⟨.BarTop, [], []⟩)
      rfl).2.2.1

/-- C3: a declared rule screen index at or above the live screen count
resolves to 0; a declared index within `[0, screen count)` is preserved
exactly. -/
theorem rule_screen_clamp_spec (cnt : Int) (secs : List RuleSection)
    (i : Nat) (s : RuleSection) (h : secs[i]? = some s) :
    (s.screen ≥ cnt → (parse_rules cnt secs)[i]?.map Rule.screen = some 0)
  ∧ (0 ≤ s.screen → s.screen < cnt →
      (parse_rules cnt secs)[i]?.map Rule.screen = some s.screen) := by
  unfold parse_rules
  rw [List.getElem?_map, h]
  constructor
  · intro hge
    simp [resolve_rule, hge]
  · intro _ hlt
    simp [resolve_rule, not_le.mpr hlt]

/-- Witness for `rule_screen_clamp_spec` (C3): with 2 live screens, a
declared index 99 resolves to 0 and a declared index 1 is preserved. -/
theorem rule_screen_clamp_spec_witness :
    (parse_rules 2 [⟨"x", "", false, 99⟩])[0]?.map Rule.screen = some 0
  ∧ (parse_rules 2 [⟨"y", "", false, 1⟩])[0]?.map Rule.screen = some 1 :=
  ⟨(rule_screen_clamp_spec 2 _ 0 _ rfl).1 (by decide),
   (rule_screen_clamp_spec 2 _ 0 _ rfl).2 (by decide) (by decide)⟩

/-- Counterexample to C4 as stated: with the declared layout list
`tile, bogus` (the second title unknown, so its slot keeps a `NULL`
`arrange`), a tag declaring the layout name `unknown` — a name present
nowhere in the output's layout list — resolves to slot 1, not to the
first layout: the match loop compares by looked-up identity, and the
failed lookup (`NULL`) matches the first failed slot. -/
theorem tag_layout_fallback_cex :
    ("unknown" ∉ ["tile", "bogus"]
      ∧ name_func_lookup (some "unknown") LayoutsList = none)
  ∧ (resolve_tag (build_layouts [⟨"tile", "[]"⟩, ⟨"bogus", "[b]"⟩])
      ⟨"web", "unknown", 1, 1⟩).layout = 1
  ∧ ¬ (resolve_tag (build_layouts [⟨"tile", "[]"⟩, ⟨"bogus", "[b]"⟩])
      ⟨"web", "unknown", 1, 1⟩).layout = 0 := by decide

/-- C4 (amended): a tag resolves to the output's first layout (index
0) when no slot of the layout list carries an `arrange` identity equal to
the lookup of the tag's declared layout name — in particular when the
name is unknown and every slot resolved, or the name is known but its
algorithm is not in the list.  (An unknown name matches the first
failed-lookup slot when one exists, see `tag_layout_fallback_cex`.) -/
theorem tag_layout_fallback (laysecs : List LayoutSection) (s : TagSection)
    (h : ∀ l ∈ build_layouts laysecs,
      l.arrange ≠ name_func_lookup (some s.layout) LayoutsList) :
    (resolve_tag (build_layouts laysecs) s).layout = 0 := by
  unfold resolve_tag tag_layout_index
  have hnone : (build_layouts laysecs).findIdx?
      (fun l => l.arrange == name_func_lookup (some s.layout) LayoutsList)
      = none := by
    rw [List.findIdx?_eq_none_iff]
    intro l hl
    exact beq_eq_false_iff_ne.mpr (h l hl)
  rw [hnone]

/-- Witness for `tag_layout_fallback` (C4): a tag declaring `max` over a
layout list containing only `tile` falls back to index 0. -/
theorem tag_layout_fallback_witness :
    (resolve_tag (build_layouts [⟨"tile", "[]"⟩])
      ⟨"web", "max", 1, 1⟩).layout = 0 :=
  tag_layout_fallback [⟨"tile", "[]"⟩] ⟨"web", "max", 1, 1⟩ (by decide)

/-- Counterexample to C5 as stated: a document whose only declared layout
section has an unknown title resolves zero layout algorithms, yet screen
resolution succeeds — the fatal check counts declared sections, not
resolved algorithms. -/
theorem layout_fatal_cex :
    (∀ l ∈ build_layouts [⟨"bogus", "?"⟩], l.arrange = none)
  ∧ (resolve_screen (some "top".toList) [⟨"bogus", "?"⟩]
      [⟨"one", "tile", 1, 1⟩]).isSome = true := by decide

/-- C5 (amended): screen resolution is fatal when zero layout
sections are declared for the output; whenever at least one layout
section and at least one tag section are declared, resolution succeeds
even if no declared layout title resolves to an algorithm. -/
theorem layout_fatal_iff_zero_declared (sb : Option (List Char))
    (laysecs : List LayoutSection) (tagsecs : List TagSection) :
    (laysecs = [] → resolve_screen sb laysecs tagsecs = none)
  ∧ (laysecs ≠ [] → tagsecs ≠ [] →
      (resolve_screen sb laysecs tagsecs).isSome = true) := by
  constructor
  · intro h
    subst h
    rfl
  · intro h1 h2
    unfold resolve_screen
    rw [if_neg (by simpa using h1), if_neg (by simpa using h2)]
    rfl

/-- Witness for `layout_fatal_iff_zero_declared` (C5): both clauses at
concrete documents. -/
theorem layout_fatal_iff_zero_declared_witness :
    resolve_screen (some "top".toList) [] [⟨"one", "tile", 1, 1⟩] = none
  ∧ (resolve_screen (some "top".toList) [⟨"bogus", "?"⟩]
      [⟨"one", "tile", 1, 1⟩]).isSome = true :=
  ⟨(layout_fatal_iff_zero_declared (some "top".toList) []
      [⟨"one", "tile", 1, 1⟩]).1 rfl,
   (layout_fatal_iff_zero_declared (some "top".toList) [⟨"bogus", "?"⟩]
      [⟨"one", "tile", 1, 1⟩]).2 (by decide) (by decide)⟩

/-- C6: the resolved layout list keeps one slot per declared layout
section: its length equals the declared count; a slot whose title fails
lookup is kept with both its symbol and its algorithm absent and the
title appears among the emitted warnings; a slot whose title resolves
carries the declared symbol and the looked-up algorithm. -/
theorem layout_list_keeps_slots (secs : List LayoutSection) :
    (build_layouts secs).length = secs.length
  ∧ (∀ i : Nat, ∀ s : LayoutSection, secs[i]? = some s →
      (name_func_lookup (some s.title) LayoutsList = none →
        (build_layouts secs)[i]? = some (Layout.mk none none)
        ∧ s.title ∈ layout_warnings secs)
      ∧ (∀ f : LayoutFunc,
          name_func_lookup (some s.title) LayoutsList = some f →
          (build_layouts secs)[i]?
            = some (Layout.mk (some s.symbol) (some f)))) := by
  refine ⟨List.length_map _ _, fun i s hget => ⟨fun hfail => ⟨?_, ?_⟩,
    fun f hok => ?_⟩⟩
  · unfold build_layouts
    rw [List.getElem?_map, hget]
    simp [resolve_layout, hfail]
  · unfold layout_warnings
    refine List.mem_map.mpr ⟨s, List.mem_filter.mpr ⟨List.getElem?_mem hget,
      ?_⟩, rfl⟩
    simp [hfail]
  · unfold build_layouts
    rw [List.getElem?_map, hget]
    simp [resolve_layout, hok]

/-- Witness for `layout_list_keeps_slots` (C6): a two-section list with
one unknown and one known title. -/
theorem layout_list_keeps_slots_witness :
    (build_layouts [⟨"zzz", "[z]"⟩, ⟨"max", "[m]"⟩]).length = 2
  ∧ (build_layouts [⟨"zzz", "[z]"⟩, ⟨"max", "[m]"⟩])[0]?
      = some (Layout.mk none none)
  ∧ "zzz" ∈ layout_warnings [⟨"zzz", "[z]"⟩, ⟨"max", "[m]"⟩]
  ∧ (build_layouts [⟨"zzz", "[z]"⟩, ⟨"max", "[m]"⟩])[1]?
      = some (Layout.mk (some "[m]") (some .layout_max)) := by
  obtain ⟨h1, h2⟩ := layout_list_keeps_slots [⟨"zzz", "[z]"⟩, ⟨"max", "[m]"⟩]
  obtain ⟨hfail, -⟩ := h2 0 ⟨"zzz", "[z]"⟩ rfl
  obtain ⟨hz1, hz2⟩ := hfail rfl
  obtain ⟨-, hok⟩ := h2 1 ⟨"max", "[m]"⟩ rfl
  exact ⟨h1, hz1, hz2, hok .layout_max rfl⟩

/-- C8: a key-binding section whose command name resolves to no entry
of the command table still yields a node, constructed and linked in
place — the whole list equals the lists built from the surrounding
sections with this node in between, so every subsequent binding is
resolved exactly as it would be otherwise — the node's command reference
is absent, and the command name appears among the emitted warnings. -/
theorem key_unknown_command_spec (uicb : List (String × Nat))
    (ksym : String → Nat) (pre post : List KeySection) (s : KeySection)
    (h : name_func_lookup (some s.command) uicb = none) :
    parse_keys uicb ksym (pre ++ s :: post)
      = parse_keys uicb ksym pre
        ++ resolve_key uicb ksym s :: parse_keys uicb ksym post
  ∧ (resolve_key uicb ksym s).func = none
  ∧ s.command ∈ key_warnings uicb (pre ++ s :: post) := by
  refine ⟨?_, ?_, ?_⟩
  · simp [parse_keys_eq_map]
  · simp [resolve_key, h]
  · unfold key_warnings
    refine List.mem_map.mpr ⟨s, List.mem_filter.mpr ⟨?_, ?_⟩, rfl⟩
    · simp
    · simp [h]

/-- Witness for `key_unknown_command_spec` (C8): a table knowing only
`spawn`, a section declaring `nonexistent-command` followed by a `spawn`
binding. -/
theorem key_unknown_command_spec_witness :
    parse_keys [("spawn", 0)] (fun _ => 7)
        ([] ++ (⟨["Mod4"], "Return", "nonexistent-command", none⟩ : KeySection)
          :: [⟨["Mod4"], "p", "spawn", some "dmenu"⟩])
      = parse_keys [("spawn", 0)] (fun _ => 7) []
        ++ resolve_key [("spawn", 0)] (fun _ => 7)
            ⟨["Mod4"], "Return", "nonexistent-command", none⟩
          :: parse_keys [("spawn", 0)] (fun _ => 7)
              [⟨["Mod4"], "p", "spawn", some "dmenu"⟩]
  ∧ (resolve_key [("spawn", 0)] (fun _ => 7)
      ⟨["Mod4"], "Return", "nonexistent-command", none⟩).func = none
  ∧ "nonexistent-command" ∈ key_warnings [("spawn", 0)]
      ([] ++ (⟨["Mod4"], "Return", "nonexistent-command", none⟩ : KeySection)
        :: [⟨["Mod4"], "p", "spawn", some "dmenu"⟩]) :=
  key_unknown_command_spec [("spawn", 0)] (fun _ => 7) []
    [⟨["Mod4"], "p", "spawn", some "dmenu"⟩]
    ⟨["Mod4"], "Return", "nonexistent-command", none⟩ (by decide)

/-- Counterexample to C9 as stated: with 2 live screens, a rule declaring
screen index `-1` keeps `-1` after resolution — out of `[0, 2)` — because
the source only coerces indices at or above the screen count. -/
theorem rule_screen_invariant_cex :
    (parse_rules 2 [⟨"x", "", false, -1⟩]).map Rule.screen = [-1]
  ∧ ¬ (∀ r ∈ parse_rules 2 [⟨"x", "", false, -1⟩],
        0 ≤ r.screen ∧ r.screen < 2) := by decide

/-- C9 (amended): whenever at least one screen is live and every
declared rule screen index is nonnegative, every resolved rule's screen
index lies in `[0, screen count)`; a negative declared index, however, is
preserved unchanged (see `rule_screen_invariant_cex`). -/
theorem rule_screen_invariant_amended (cnt : Int) (secs : List RuleSection)
    (hcnt : 1 ≤ cnt) (hdecl : ∀ s ∈ secs, 0 ≤ s.screen) :
    ∀ r ∈ parse_rules cnt secs, 0 ≤ r.screen ∧ r.screen < cnt := by
  intro r hr
  obtain ⟨s, hs, rfl⟩ := List.mem_map.mp hr
  unfold resolve_rule
  by_cases hge : s.screen ≥ cnt
  · rw [if_pos hge]
    exact ⟨le_refl 0, show (0 : Int) < cnt by omega⟩
  · rw [if_neg hge]
    exact ⟨hdecl s hs, lt_of_not_ge hge⟩

/-- Witness for `rule_screen_invariant_amended` (C9): two rules with
nonnegative declared indices against 2 live screens. -/
theorem rule_screen_invariant_amended_witness :
    0 ≤ (resolve_rule 2 ⟨"a", "", false, 5⟩).screen
  ∧ (resolve_rule 2 ⟨"a", "", false, 5⟩).screen < 2 :=
  rule_screen_invariant_amended 2 [⟨"a", "", false, 5⟩, ⟨"b", "", false, 1⟩]
    (by decide) (by decide) (resolve_rule 2 ⟨"a", "", false, 5⟩) (by decide)

end AwesomeConfig
